import Mathlib

/-!
Shallow embedding of the Flash Region Manager from
`src/firmware/flash_manager.c` (UEFI USB firmware tool).

Machine integers are modelled as `Nat` with explicit reduction modulo
`2^32` (`UINT32`) or `2^64` (`UINT64`/`UINTN`) exactly where the C code
truncates or wraps.  `EFI_STATUS` values are an inductive type; the
storage backend (the `EFI_FIRMWARE_VOLUME_BLOCK_PROTOCOL`) is an oracle:
its availability and the status it would return are inputs, and every
operation reports whether it dispatched to the backend.
-/

namespace FlashMgr

def UINT32_MOD : Nat := 4294967296

def UINT64_MOD : Nat := 18446744073709551616

/-- EFI status codes used by the flash manager module. -/
inductive EfiStatus where
  | Success
  | InvalidParameter
  | NotReady
  | AlreadyStarted
  | WriteProtected
  | NotFound
  | Unsupported
  | DeviceError
  deriving DecidableEq, Repr

/-- EFI_ERROR macro: every status other than `Success` is an error. -/
def EFI_ERROR (s : EfiStatus) : Bool :=
  s != EfiStatus.Success

/-- FLASH_REGION_TYPE enum from `flash_manager.h`. -/
inductive FLASH_REGION_TYPE where
  | BootBlock
  | MainFirmware
  | Nvram
  | Descriptor
  | Custom
  deriving DecidableEq, Repr

/-- FLASH_REGION struct from `flash_manager.h`; `StartAddress` and `Size`
are `UINT32` fields, so values stored into them are reduced mod `2^32`
at the assignment site. -/
structure FLASH_REGION where
  RegionType : FLASH_REGION_TYPE
  StartAddress : Nat
  Size : Nat
  WriteProtected : Bool
  EraseRequired : Bool
  Name : String
  deriving DecidableEq, Repr

/-- FLASH_DEVICE_INFO struct from `flash_manager.h`; `TotalSize` is
`UINT64`, `SectorSize` and `BlockCount` are `UINT32`. -/
structure FLASH_DEVICE_INFO where
  DeviceName : String
  DeviceId : Nat
  VendorId : Nat
  TotalSize : Nat
  SectorSize : Nat
  WriteProtected : Bool
  BlockCount : Nat
  deriving DecidableEq, Repr

/-- Module-level static state of `flash_manager.c`
(`mFlashManagerInitialized`, `mFvbProtocol != NULL`, `mFlashInfo`,
`mFlashRegions`/`mRegionCount` as a list). -/
structure ManagerState where
  initialized : Bool
  fvbPresent : Bool
  flashInfo : FLASH_DEVICE_INFO
  regions : List FLASH_REGION
  deriving DecidableEq, Repr

/-- Geometry answer of the backend's `GetBlockSize` query
(`BlockSize : UINTN`, `NumberOfBlocks : EFI_LBA`, both 64-bit). -/
structure BackendGeometry where
  BlockSize : Nat
  NumberOfBlocks : Nat
  deriving DecidableEq, Repr

/-- Backend environment seen by `flash_manager_init` /
`DetectFlashDevice`: whether an FVB protocol instance can be located and
opened, the optional `GetAttributes` answer (the `EFI_FVB2_READ_STATUS`
bit), and the optional `GetBlockSize` answer. -/
structure BackendEnv where
  fvbAvailable : Bool
  attributes : Option Bool
  geometry : Option BackendGeometry
  deriving DecidableEq, Repr

/-- Zeroed FLASH_DEVICE_INFO (module statics start zeroed, and
`ZeroMemory` resets to this in init/cleanup). -/
def zeroFlashInfo : FLASH_DEVICE_INFO :=
  { DeviceName := ""
    DeviceId := 0
    VendorId := 0
    TotalSize := 0
    SectorSize := 0
    WriteProtected := false
    BlockCount := 0 }

/-- State of the module statics before any call. -/
def initialManagerState : ManagerState :=
  { initialized := false
    fvbPresent := false
    flashInfo := zeroFlashInfo
    regions := [] }

/-- DetectFlashDevice (flash_manager.c:119): fills in fixed defaults
(16 MiB, 4 KiB sectors, not write protected), then, when the FVB
protocol is present, overrides the write-protect flag from
`GetAttributes` and the geometry from `GetBlockSize` when those queries
succeed.  Always returns `EFI_SUCCESS`; failure is non-fatal. -/
def DetectFlashDevice (fvbPresent : Bool) (env : BackendEnv) : FLASH_DEVICE_INFO :=
  let info : FLASH_DEVICE_INFO :=
    { DeviceName := "Generic SPI Flash"
      DeviceId := 0x12345678
      VendorId := 0xABCD
      TotalSize := 16 * 1024 * 1024
      SectorSize := 4096
      WriteProtected := false
      BlockCount := 16 * 1024 * 1024 / 4096 }
  if fvbPresent then
    let info1 :=
      match env.attributes with
      | some readStatus => { info with WriteProtected := readStatus }
      | none => info
    match env.geometry with
    | some g =>
        { info1 with
            SectorSize := g.BlockSize % UINT32_MOD
            BlockCount := g.NumberOfBlocks % UINT32_MOD
            TotalSize := g.BlockSize * g.NumberOfBlocks % UINT64_MOD }
    | none => info1
  else info

/-- InitializeFlashRegions (flash_manager.c:175): builds the fixed
four-region layout from `mFlashInfo.TotalSize`.  The Main Firmware size
`TotalSize - 256*1024` and the NVRAM / Descriptor start addresses
`TotalSize - 192*1024` / `TotalSize - 64*1024` are computed in `UINT64`
arithmetic (wrapping mod `2^64`) and then truncated mod `2^32` on
assignment to the `UINT32` struct fields; there is no underflow guard.
Always returns `EFI_SUCCESS`. -/
def InitializeFlashRegions (info : FLASH_DEVICE_INFO) : List FLASH_REGION :=
  [ { RegionType := FLASH_REGION_TYPE.BootBlock
      StartAddress := 0
      Size := 64 * 1024
      WriteProtected := true
      EraseRequired := true
      Name := "Boot Block" },
    { RegionType := FLASH_REGION_TYPE.MainFirmware
      StartAddress := 64 * 1024
      Size := (info.TotalSize + (UINT64_MOD - 256 * 1024)) % UINT64_MOD % UINT32_MOD
      WriteProtected := false
      EraseRequired := true
      Name := "Main Firmware" },
    { RegionType := FLASH_REGION_TYPE.Nvram
      StartAddress := (info.TotalSize + (UINT64_MOD - 192 * 1024)) % UINT64_MOD % UINT32_MOD
      Size := 128 * 1024
      WriteProtected := false
      EraseRequired := true
      Name := "NVRAM" },
    { RegionType := FLASH_REGION_TYPE.Descriptor
      StartAddress := (info.TotalSize + (UINT64_MOD - 64 * 1024)) % UINT64_MOD % UINT32_MOD
      Size := 64 * 1024
      WriteProtected := true
      EraseRequired := false
      Name := "Flash Descriptor" }
  ]

/-- RegionEnd computation `StartAddress + Size - 1` in `UINT32`
arithmetic, as it appears in both region checks
(flash_manager.c:465 and flash_manager.c:493). -/
def regionEnd (r : FLASH_REGION) : Nat :=
  (r.StartAddress + r.Size + (UINT32_MOD - 1)) % UINT32_MOD

/-- Loop body of CheckRegionWriteProtection (flash_manager.c:456):
scan the table in order; the first region that overlaps
`[Address, EndAddress]` and is write protected yields
`EFI_WRITE_PROTECTED`, logging that region's name. `none` means the
scan fell through and the function returns `EFI_SUCCESS`. -/
def checkWriteLoop (regions : List FLASH_REGION) (Address EndAddress : Nat) : Option String :=
  match regions with
  | [] => none
  | r :: rest =>
      if Address ≤ regionEnd r ∧ EndAddress ≥ r.StartAddress ∧ r.WriteProtected then
        some r.Name
      else
        checkWriteLoop rest Address EndAddress

/-- CheckRegionWriteProtection (flash_manager.c:456): computes
`EndAddress = Address + Size - 1` (the sum is `UINT64` because `Size`
is `UINTN`, the result is truncated to the `UINT32` local), then scans
the region table. -/
def CheckRegionWriteProtection (regions : List FLASH_REGION) (Address Size : Nat) : Option String :=
  checkWriteLoop regions Address ((Address + Size + (UINT64_MOD - 1)) % UINT64_MOD % UINT32_MOD)

/-- Outcome of CheckRegionEraseSupport. -/
inductive EraseCheckResult where
  | Success
  | Unsupported (name : String)
  | NotFound
  deriving DecidableEq, Repr

/-- CheckRegionEraseSupport (flash_manager.c:486): scan the table in
order for the first region containing `Address`
(`Address >= StartAddress && Address <= RegionEnd`); that region is
authoritative: `EraseRequired = false` gives `EFI_UNSUPPORTED`
(logging its name), else `EFI_SUCCESS`; a fall-through gives
`EFI_NOT_FOUND`. -/
def CheckRegionEraseSupport (regions : List FLASH_REGION) (Address : Nat) : EraseCheckResult :=
  match regions with
  | [] => EraseCheckResult.NotFound
  | r :: rest =>
      if r.StartAddress ≤ Address ∧ Address ≤ regionEnd r then
        if r.EraseRequired then EraseCheckResult.Success
        else EraseCheckResult.Unsupported r.Name
      else
        CheckRegionEraseSupport rest Address

/-- Point containment test of the erase check, as a Bool predicate
(used to characterise the scan as a first-match lookup). -/
def containsB (r : FLASH_REGION) (Address : Nat) : Bool :=
  decide (r.StartAddress ≤ Address ∧ Address ≤ regionEnd r)

/-- Result of one public read/write/erase call: the returned
`EFI_STATUS`, whether the FVB backend was invoked, and the region name
the module logged for a region-policy rejection, when any. -/
structure OpResult where
  status : EfiStatus
  backendCalled : Bool
  loggedRegion : Option String
  deriving DecidableEq, Repr

/-- flash_read (flash_manager.c:241).  `Buffer == NULL`, `Size == 0` or
an uninitialized manager give `EFI_INVALID_PARAMETER`; then the
boundary check `Address + Size > TotalSize` (64-bit arithmetic) gives
`EFI_INVALID_PARAMETER`; then the FVB backend is invoked when present
(its status is passed through on failure), else the direct
memory-access fallback succeeds.  No region-table access anywhere. -/
def flash_read (s : ManagerState) (Address : Nat) (bufferNull : Bool) (Size : Nat)
    (backendStatus : EfiStatus) : OpResult :=
  if bufferNull ∨ Size = 0 ∨ s.initialized = false then
    { status := EfiStatus.InvalidParameter, backendCalled := false, loggedRegion := none }
  else if (Address + Size) % UINT64_MOD > s.flashInfo.TotalSize then
    { status := EfiStatus.InvalidParameter, backendCalled := false, loggedRegion := none }
  else if s.fvbPresent then
    if EFI_ERROR backendStatus then
      { status := backendStatus, backendCalled := true, loggedRegion := none }
    else
      { status := EfiStatus.Success, backendCalled := true, loggedRegion := none }
  else
    { status := EfiStatus.Success, backendCalled := false, loggedRegion := none }

/-- flash_write (flash_manager.c:308).  Same parameter and boundary
checks as `flash_read`, then the global write-protect flag
(`EFI_WRITE_PROTECTED`), then `CheckRegionWriteProtection`
(`EFI_WRITE_PROTECTED`, logging the violating region), then the
backend dispatch (or simulated success without FVB).  The module
statics are never assigned, so the state component of the result is
the input state. -/
def flash_write (s : ManagerState) (Address : Nat) (bufferNull : Bool) (Size : Nat)
    (backendStatus : EfiStatus) : ManagerState × OpResult :=
  if bufferNull ∨ Size = 0 ∨ s.initialized = false then
    (s, { status := EfiStatus.InvalidParameter, backendCalled := false, loggedRegion := none })
  else if (Address + Size) % UINT64_MOD > s.flashInfo.TotalSize then
    (s, { status := EfiStatus.InvalidParameter, backendCalled := false, loggedRegion := none })
  else if s.flashInfo.WriteProtected then
    (s, { status := EfiStatus.WriteProtected, backendCalled := false, loggedRegion := none })
  else
    match CheckRegionWriteProtection s.regions Address Size with
    | some name =>
        (s, { status := EfiStatus.WriteProtected, backendCalled := false,
              loggedRegion := some name })
    | none =>
        if s.fvbPresent then
          if EFI_ERROR backendStatus then
            (s, { status := backendStatus, backendCalled := true, loggedRegion := none })
          else
            (s, { status := EfiStatus.Success, backendCalled := true, loggedRegion := none })
        else
          (s, { status := EfiStatus.Success, backendCalled := false, loggedRegion := none })

/-- flash_erase_sector (flash_manager.c:385).  Uninitialized gives
`EFI_NOT_READY`; `Address >= TotalSize` gives `EFI_INVALID_PARAMETER`;
the global write-protect flag gives `EFI_WRITE_PROTECTED`; then
`CheckRegionEraseSupport` decides (`EFI_NOT_FOUND`, or
`EFI_UNSUPPORTED` logging the region name); then the backend erase is
dispatched when FVB is present (or simulated success).  The statics
are never assigned. -/
def flash_erase_sector (s : ManagerState) (Address : Nat)
    (backendStatus : EfiStatus) : ManagerState × OpResult :=
  if s.initialized = false then
    (s, { status := EfiStatus.NotReady, backendCalled := false, loggedRegion := none })
  else if Address ≥ s.flashInfo.TotalSize then
    (s, { status := EfiStatus.InvalidParameter, backendCalled := false, loggedRegion := none })
  else if s.flashInfo.WriteProtected then
    (s, { status := EfiStatus.WriteProtected, backendCalled := false, loggedRegion := none })
  else
    match CheckRegionEraseSupport s.regions Address with
    | EraseCheckResult.NotFound =>
        (s, { status := EfiStatus.NotFound, backendCalled := false, loggedRegion := none })
    | EraseCheckResult.Unsupported name =>
        (s, { status := EfiStatus.Unsupported, backendCalled := false,
              loggedRegion := some name })
    | EraseCheckResult.Success =>
        if s.fvbPresent then
          if EFI_ERROR backendStatus then
            (s, { status := backendStatus, backendCalled := true, loggedRegion := none })
          else
            (s, { status := EfiStatus.Success, backendCalled := true, loggedRegion := none })
        else
          (s, { status := EfiStatus.Success, backendCalled := false, loggedRegion := none })

/-- flash_get_device_info (flash_manager.c:516): a NULL out-pointer or
an uninitialized manager gives `EFI_INVALID_PARAMETER`, else a copy of
`mFlashInfo` and `EFI_SUCCESS`. -/
def flash_get_device_info (s : ManagerState) (infoNull : Bool) :
    EfiStatus × Option FLASH_DEVICE_INFO :=
  if infoNull ∨ s.initialized = false then
    (EfiStatus.InvalidParameter, none)
  else
    (EfiStatus.Success, some s.flashInfo)

/-- flash_manager_init (flash_manager.c:37): `EFI_ALREADY_STARTED` when
already initialized; else zero the statics, try to locate/open the FVB
protocol (failure is non-fatal, leaving the protocol pointer NULL),
run `DetectFlashDevice` (non-fatal) and `InitializeFlashRegions`
(always `EFI_SUCCESS`), set the initialized flag and return
`EFI_SUCCESS`. -/
def flash_manager_init (s : ManagerState) (env : BackendEnv) : ManagerState × EfiStatus :=
  if s.initialized then
    (s, EfiStatus.AlreadyStarted)
  else
    let fvbPresent := env.fvbAvailable
    let info := DetectFlashDevice fvbPresent env
    ({ initialized := true
       fvbPresent := fvbPresent
       flashInfo := info
       regions := InitializeFlashRegions info }, EfiStatus.Success)

/-- flash_manager_cleanup (flash_manager.c:572): `EFI_NOT_READY` when
not initialized; else close the FVB protocol, zero the device info and
region table, clear the initialized flag and return `EFI_SUCCESS`. -/
def flash_manager_cleanup (s : ManagerState) : ManagerState × EfiStatus :=
  if s.initialized = false then
    (s, EfiStatus.NotReady)
  else
    ({ initialized := false
       fvbPresent := false
       flashInfo := zeroFlashInfo
       regions := [] }, EfiStatus.Success)

/-- Backend environment with an FVB protocol present and both optional
queries failing: detection keeps all defaults (16 MiB device). -/
def defaultEnv : BackendEnv :=
  { fvbAvailable := true, attributes := none, geometry := none }

/-- Manager state right after a successful init against `defaultEnv`:
16 MiB device, not write protected, default four-region table. -/
def state16MB : ManagerState :=
  (flash_manager_init initialManagerState defaultEnv).1


/-! Helper lemmas about the default four-region layout. -/

/-- Concrete region table of the default 16 MiB device. -/
theorem state16MB_regions :
    state16MB.regions =
      [ { RegionType := FLASH_REGION_TYPE.BootBlock, StartAddress := 0, Size := 65536,
          WriteProtected := true, EraseRequired := true, Name := "Boot Block" },
        { RegionType := FLASH_REGION_TYPE.MainFirmware, StartAddress := 65536, Size := 16515072,
          WriteProtected := false, EraseRequired := true, Name := "Main Firmware" },
        { RegionType := FLASH_REGION_TYPE.Nvram, StartAddress := 16580608, Size := 131072,
          WriteProtected := false, EraseRequired := true, Name := "NVRAM" },
        { RegionType := FLASH_REGION_TYPE.Descriptor, StartAddress := 16711680, Size := 65536,
          WriteProtected := true, EraseRequired := false, Name := "Flash Descriptor" } ] := by
  decide

/-- Erase-eligibility scan over the default layout, characterised by the
address bands of the four regions. -/
theorem defaultRegions_eraseCheck (info : FLASH_DEVICE_INFO) (Address : Nat)
    (h1 : 320 * 1024 ≤ info.TotalSize) (h2 : info.TotalSize ≤ UINT32_MOD) :
    CheckRegionEraseSupport (InitializeFlashRegions info) Address =
      if Address < info.TotalSize - 65536 then EraseCheckResult.Success
      else if Address < info.TotalSize then EraseCheckResult.Unsupported "Flash Descriptor"
      else EraseCheckResult.NotFound := by
  simp only [UINT32_MOD] at h2
  have eMF : (info.TotalSize + (UINT64_MOD - 256 * 1024)) % UINT64_MOD % UINT32_MOD
      = info.TotalSize - 262144 := by
    simp only [UINT64_MOD, UINT32_MOD]; omega
  have eNV : (info.TotalSize + (UINT64_MOD - 192 * 1024)) % UINT64_MOD % UINT32_MOD
      = info.TotalSize - 196608 := by
    simp only [UINT64_MOD, UINT32_MOD]; omega
  have eDE : (info.TotalSize + (UINT64_MOD - 64 * 1024)) % UINT64_MOD % UINT32_MOD
      = info.TotalSize - 65536 := by
    simp only [UINT64_MOD, UINT32_MOD]; omega
  simp only [InitializeFlashRegions, eMF, eNV, eDE]
  simp [CheckRegionEraseSupport, regionEnd, UINT32_MOD]
  split_ifs <;> first | rfl | omega

/-- Write-protection scan over the default layout: the Boot Block is hit
first by any in-bounds range starting below 64 KiB, the Flash
Descriptor by any other in-bounds range reaching above
`TotalSize - 64 KiB`, and no write-protected region otherwise. -/
theorem defaultRegions_writeCheck (info : FLASH_DEVICE_INFO) (Address Size : Nat)
    (h1 : 320 * 1024 ≤ info.TotalSize) (h2 : info.TotalSize ≤ UINT32_MOD)
    (hs : 1 ≤ Size) (hb : Address + Size ≤ info.TotalSize) :
    CheckRegionWriteProtection (InitializeFlashRegions info) Address Size =
      if Address < 65536 then some "Boot Block"
      else if info.TotalSize - 65536 < Address + Size then some "Flash Descriptor"
      else none := by
  simp only [UINT32_MOD] at h2
  have eMF : (info.TotalSize + (UINT64_MOD - 256 * 1024)) % UINT64_MOD % UINT32_MOD
      = info.TotalSize - 262144 := by
    simp only [UINT64_MOD, UINT32_MOD]; omega
  have eNV : (info.TotalSize + (UINT64_MOD - 192 * 1024)) % UINT64_MOD % UINT32_MOD
      = info.TotalSize - 196608 := by
    simp only [UINT64_MOD, UINT32_MOD]; omega
  have eDE : (info.TotalSize + (UINT64_MOD - 64 * 1024)) % UINT64_MOD % UINT32_MOD
      = info.TotalSize - 65536 := by
    simp only [UINT64_MOD, UINT32_MOD]; omega
  have eEnd : (Address + Size + (UINT64_MOD - 1)) % UINT64_MOD % UINT32_MOD
      = Address + Size - 1 := by
    simp only [UINT64_MOD, UINT32_MOD]; omega
  simp only [InitializeFlashRegions, CheckRegionWriteProtection, eMF, eNV, eDE, eEnd]
  simp [checkWriteLoop, regionEnd, UINT32_MOD]
  split_ifs <;> first | rfl | omega

/-! Claim theorems. -/

/-- C1: the claim requires region-table construction to clamp or reject
a descriptor with `total_size < 320 KiB`; the code does neither.  For a
128 KiB device (FVB geometry 32 blocks of 4096 bytes), init succeeds,
and the Main Firmware region size `TotalSize - 256 KiB` silently wraps
to `2^32 - 131072 = 4294836224` instead of being clamped to zero or the
descriptor rejected. -/
theorem C1_small_device_main_firmware_size_wraps :
    (flash_manager_init initialManagerState
        { fvbAvailable := true, attributes := none,
          geometry := some { BlockSize := 4096, NumberOfBlocks := 32 } }).2
      = EfiStatus.Success
    ∧ (flash_manager_init initialManagerState
        { fvbAvailable := true, attributes := none,
          geometry := some { BlockSize := 4096, NumberOfBlocks := 32 } }).1.flashInfo.TotalSize
      = 131072
    ∧ ((flash_manager_init initialManagerState
        { fvbAvailable := true, attributes := none,
          geometry := some { BlockSize := 4096, NumberOfBlocks := 32 } }).1.regions.get? 1).map
        FLASH_REGION.Size
      = some 4294836224 := by
  decide

/-- C2 counterexample: on the default 16 MiB device, address 0 lies in
the Boot Block region, whose `WriteProtected` attribute is true and
`EraseRequired` is true, the global write-protect flag is clear, and
`flash_erase_sector` succeeds and dispatches to the backend instead of
failing, refuting the claim that a region's write_protected flag
forbids erase. -/
theorem C2_counterexample_erase_in_boot_block_succeeds :
    state16MB.flashInfo.WriteProtected = false
    ∧ state16MB.regions.head?.map FLASH_REGION.WriteProtected = some true
    ∧ state16MB.regions.head?.map FLASH_REGION.StartAddress = some 0
    ∧ state16MB.regions.head?.map FLASH_REGION.EraseRequired = some true
    ∧ (flash_erase_sector state16MB 0 EfiStatus.Success).2
      = { status := EfiStatus.Success, backendCalled := true, loggedRegion := none } := by
  decide

/-- C2 amended: the write_protected attribute of a region restricts only
writes; erase eligibility is decided solely by `erase_required`.  For
every address in the write-protected Boot Block region of the default
16 MiB device, `flash_erase_sector` passes the region check and
dispatches the erase to the backend (global write-protect clear). -/
theorem C2_erase_ignores_region_write_protection (Address : Nat) (h : Address < 65536) :
    (flash_erase_sector state16MB Address EfiStatus.Success).2
      = { status := EfiStatus.Success, backendCalled := true, loggedRegion := none } := by
  have hchk : CheckRegionEraseSupport state16MB.regions Address = EraseCheckResult.Success := by
    rw [state16MB_regions]
    simp [CheckRegionEraseSupport, regionEnd, UINT32_MOD]
    omega
  have hinit : state16MB.initialized = true := by decide
  have hfvb : state16MB.fvbPresent = true := by decide
  have hwp : state16MB.flashInfo.WriteProtected = false := by decide
  have htot : state16MB.flashInfo.TotalSize = 16777216 := by decide
  simp [flash_erase_sector, hinit, hfvb, hwp, htot, hchk, EFI_ERROR]
  have hlt : ¬ 16777216 ≤ Address := by omega
  simp [hlt]

/-- C2 amended, witness at address 0. -/
theorem C2_erase_ignores_region_write_protection_witness :
    (flash_erase_sector state16MB 0 EfiStatus.Success).2
      = { status := EfiStatus.Success, backendCalled := true, loggedRegion := none } :=
  C2_erase_ignores_region_write_protection 0 (by decide)

/-- C3 counterexample: on an uninitialized manager, `flash_read` with a
non-null buffer of one byte returns `EFI_INVALID_PARAMETER`, not the
`EFI_NOT_READY` the claim requires. -/
theorem C3_counterexample_uninitialized_read_invalid_parameter :
    (flash_read initialManagerState 0 false 1 EfiStatus.Success).status
      = EfiStatus.InvalidParameter
    ∧ EfiStatus.InvalidParameter ≠ EfiStatus.NotReady := by
  decide

/-- C3 amended: while uninitialized, `flash_read`, `flash_write` and
`flash_get_device_info` fail with `EFI_INVALID_PARAMETER` (the
initialization test is folded into their parameter check), whereas
`flash_erase_sector` (like status and cleanup) fails with
`EFI_NOT_READY`. -/
theorem C3_uninitialized_error_kinds (s : ManagerState) (Address Size : Nat)
    (bufferNull infoNull : Bool) (backendStatus : EfiStatus)
    (h : s.initialized = false) :
    (flash_read s Address bufferNull Size backendStatus).status = EfiStatus.InvalidParameter
    ∧ (flash_write s Address bufferNull Size backendStatus).2.status
      = EfiStatus.InvalidParameter
    ∧ (flash_get_device_info s infoNull).1 = EfiStatus.InvalidParameter
    ∧ (flash_erase_sector s Address backendStatus).2.status = EfiStatus.NotReady := by
  simp [flash_read, flash_write, flash_get_device_info, flash_erase_sector, h]

/-- C3 amended, witness on the pristine module state. -/
theorem C3_uninitialized_error_kinds_witness :
    (flash_read initialManagerState 5 false 16 EfiStatus.Success).status
      = EfiStatus.InvalidParameter
    ∧ (flash_write initialManagerState 5 false 16 EfiStatus.Success).2.status
      = EfiStatus.InvalidParameter
    ∧ (flash_get_device_info initialManagerState false).1 = EfiStatus.InvalidParameter
    ∧ (flash_erase_sector initialManagerState 5 EfiStatus.Success).2.status
      = EfiStatus.NotReady :=
  C3_uninitialized_error_kinds initialManagerState 5 16 false false EfiStatus.Success (by decide)

/-- C4: whenever `address + size` exceeds `total_size` (in exact
arithmetic, which agrees with the code's widened 64-bit computation on
every sum below `2^64`), both `flash_read` and `flash_write` return
`EFI_INVALID_PARAMETER` without calling the backend, for every buffer
and backend status. -/
theorem C4_boundary_rejection (s : ManagerState) (Address Size : Nat)
    (bufferNull : Bool) (backendStatus : EfiStatus)
    (hnw : Address + Size < UINT64_MOD)
    (hgt : Address + Size > s.flashInfo.TotalSize) :
    flash_read s Address bufferNull Size backendStatus
      = { status := EfiStatus.InvalidParameter, backendCalled := false, loggedRegion := none }
    ∧ flash_write s Address bufferNull Size backendStatus
      = (s, { status := EfiStatus.InvalidParameter, backendCalled := false,
              loggedRegion := none }) := by
  have hmod : (Address + Size) % UINT64_MOD = Address + Size := Nat.mod_eq_of_lt hnw
  by_cases h0 : bufferNull = true ∨ Size = 0 ∨ s.initialized = false
  · constructor
    · simp [flash_read, h0]
    · simp [flash_write, h0]
  · constructor
    · simp [flash_read, h0, hmod, hgt]
    · simp [flash_write, h0, hmod, hgt]

/-- C4 witness: the 16 MiB default device rejects a two-byte read and
write at `total_size - 1`. -/
theorem C4_boundary_rejection_witness :
    flash_read state16MB 16777215 false 2 EfiStatus.Success
      = { status := EfiStatus.InvalidParameter, backendCalled := false, loggedRegion := none }
    ∧ flash_write state16MB 16777215 false 2 EfiStatus.Success
      = (state16MB, { status := EfiStatus.InvalidParameter, backendCalled := false,
                      loggedRegion := none }) :=
  C4_boundary_rejection state16MB 16777215 2 false EfiStatus.Success (by decide) (by decide)

/-- Manager state carrying descriptor `info` with the region table built
from it: exactly the state `flash_manager_init` leaves behind when the
FVB protocol is present and device detection yields `info`. -/
def initializedState (info : FLASH_DEVICE_INFO) : ManagerState :=
  { initialized := true
    fvbPresent := true
    flashInfo := info
    regions := InitializeFlashRegions info }

/-- Initialization against an available backend really produces
`initializedState` of the detected descriptor. -/
theorem flash_manager_init_initializedState (s : ManagerState) (env : BackendEnv)
    (h : s.initialized = false) (hfvb : env.fvbAvailable = true) :
    (flash_manager_init s env).1 = initializedState (DetectFlashDevice true env) := by
  simp [flash_manager_init, initializedState, h, hfvb]

/-- C5: region write policy over the default layout.  For every
in-bounds non-empty write on an initialized, globally unprotected
manager whose regions were built from its descriptor: a range starting
inside the Boot Block is rejected as `EFI_WRITE_PROTECTED` logging
"Boot Block"; any other range reaching into the Flash Descriptor is
rejected as `EFI_WRITE_PROTECTED` logging "Flash Descriptor"; a range
lying fully inside Main Firmware / NVRAM (the band
`[64 KiB, total_size - 64 KiB)`) passes the region check and the write
succeeds with one backend call. -/
theorem C5_region_write_policy (info : FLASH_DEVICE_INFO) (Address Size : Nat)
    (h1 : 320 * 1024 ≤ info.TotalSize) (h2 : info.TotalSize ≤ UINT32_MOD)
    (hwp : info.WriteProtected = false)
    (hs : 1 ≤ Size) (hb : Address + Size ≤ info.TotalSize) :
    (Address < 65536 →
      (flash_write (initializedState info) Address false Size EfiStatus.Success).2
        = { status := EfiStatus.WriteProtected, backendCalled := false,
            loggedRegion := some "Boot Block" })
    ∧ (65536 ≤ Address → info.TotalSize - 65536 < Address + Size →
      (flash_write (initializedState info) Address false Size EfiStatus.Success).2
        = { status := EfiStatus.WriteProtected, backendCalled := false,
            loggedRegion := some "Flash Descriptor" })
    ∧ (65536 ≤ Address → Address + Size ≤ info.TotalSize - 65536 →
      (flash_write (initializedState info) Address false Size EfiStatus.Success).2
        = { status := EfiStatus.Success, backendCalled := true, loggedRegion := none }) := by
  have hchk := defaultRegions_writeCheck info Address Size h1 h2 hs hb
  have hmod : (Address + Size) % UINT64_MOD ≤ info.TotalSize :=
    le_trans (Nat.mod_le _ _) hb
  have hnb : ¬ (Address + Size) % UINT64_MOD > info.TotalSize := by omega
  have hsz : ¬ Size = 0 := by omega
  refine ⟨fun hbb => ?_, fun ha hd => ?_, fun ha hok => ?_⟩
  · simp [flash_write, initializedState, hwp, hnb, hchk, hbb, hsz]
  · have hnbb : ¬ Address < 65536 := by omega
    simp [flash_write, initializedState, hwp, hnb, hchk, hnbb, hd, hsz]
  · have hnbb : ¬ Address < 65536 := by omega
    have hnd : ¬ info.TotalSize - 65536 < Address + Size := by omega
    simp [flash_write, initializedState, hwp, hnb, hchk, hnbb, hnd, hsz, EFI_ERROR]

/-- C5 witness: on the 16 MiB default device, a 512-byte write at 0 is
rejected naming the Boot Block, a 512-byte write into the last 64 KiB
is rejected naming the Flash Descriptor, and a 512-byte write at
192 KiB (inside Main Firmware) succeeds with a backend call. -/
theorem C5_region_write_policy_witness :
    ((flash_write (initializedState state16MB.flashInfo) 0 false 512 EfiStatus.Success).2
      = { status := EfiStatus.WriteProtected, backendCalled := false,
          loggedRegion := some "Boot Block" })
    ∧ ((flash_write (initializedState state16MB.flashInfo) 16776704 false 512
          EfiStatus.Success).2
      = { status := EfiStatus.WriteProtected, backendCalled := false,
          loggedRegion := some "Flash Descriptor" })
    ∧ ((flash_write (initializedState state16MB.flashInfo) 196608 false 512
          EfiStatus.Success).2
      = { status := EfiStatus.Success, backendCalled := true, loggedRegion := none }) :=
  ⟨(C5_region_write_policy state16MB.flashInfo 0 512 (by decide) (by decide) (by decide)
      (by decide) (by decide)).1 (by decide),
   (C5_region_write_policy state16MB.flashInfo 16776704 512 (by decide) (by decide) (by decide)
      (by decide) (by decide)).2.1 (by decide) (by decide),
   (C5_region_write_policy state16MB.flashInfo 196608 512 (by decide) (by decide) (by decide)
      (by decide) (by decide)).2.2 (by decide) (by decide)⟩

/-- C6: the erase-eligibility scan is a first-match point lookup.  For
every region table and address, `CheckRegionEraseSupport` equals: take
the first region in table order containing the address; none gives
`NotFound`, a first match with `erase_required` false gives
`Unsupported` carrying that region's name, and otherwise the check
succeeds. -/
theorem C6_erase_check_is_first_containing_region (regions : List FLASH_REGION)
    (Address : Nat) :
    CheckRegionEraseSupport regions Address =
      match regions.find? (fun r => containsB r Address) with
      | none => EraseCheckResult.NotFound
      | some r =>
          if r.EraseRequired then EraseCheckResult.Success
          else EraseCheckResult.Unsupported r.Name := by
  induction regions with
  | nil => rfl
  | cons r rest ih =>
      by_cases hc : r.StartAddress ≤ Address ∧ Address ≤ regionEnd r
      · simp [CheckRegionEraseSupport, containsB, hc]
      · simp [CheckRegionEraseSupport, containsB, hc, ih]

/-- C7: fail-fast without side effects.  With a backend that would
succeed, any non-success result of `flash_write` or
`flash_erase_sector` is a validation error raised before the backend
dispatch: the backend was not called; and both functions always leave
the module state exactly as it was. -/
theorem C7_fail_fast_no_partial_effects (s : ManagerState) (Address Size : Nat)
    (bufferNull : Bool) :
    ((flash_write s Address bufferNull Size EfiStatus.Success).2.status ≠ EfiStatus.Success →
      (flash_write s Address bufferNull Size EfiStatus.Success).2.backendCalled = false)
    ∧ (flash_write s Address bufferNull Size EfiStatus.Success).1 = s
    ∧ ((flash_erase_sector s Address EfiStatus.Success).2.status ≠ EfiStatus.Success →
      (flash_erase_sector s Address EfiStatus.Success).2.backendCalled = false)
    ∧ (flash_erase_sector s Address EfiStatus.Success).1 = s := by
  unfold flash_write flash_erase_sector
  refine ⟨?_, ?_, ?_, ?_⟩ <;>
    · repeat' split
      all_goals simp_all [EFI_ERROR]

/-- C7 witness: a write into the protected Boot Block of the default
device errs without a backend call and leaves the state unchanged, as
does an erase inside the Flash Descriptor. -/
theorem C7_fail_fast_no_partial_effects_witness :
    (flash_write state16MB 0 false 512 EfiStatus.Success).2.backendCalled = false
    ∧ (flash_write state16MB 0 false 512 EfiStatus.Success).1 = state16MB
    ∧ (flash_erase_sector state16MB 16711680 EfiStatus.Success).2.backendCalled = false
    ∧ (flash_erase_sector state16MB 16711680 EfiStatus.Success).1 = state16MB := by
  have h := C7_fail_fast_no_partial_effects state16MB 0 512 false
  have h2 := C7_fail_fast_no_partial_effects state16MB 16711680 512 false
  exact ⟨h.1 (by decide), h.2.1, h2.2.2.1 (by decide), h2.2.2.2⟩

/-- C8: init/cleanup state machine.  From any uninitialized state and
any backend environment: init succeeds and marks the manager
initialized; an immediately repeated init returns `EFI_ALREADY_STARTED`
leaving the state untouched; cleanup then succeeds and marks the
manager uninitialized; an immediately repeated cleanup returns
`EFI_NOT_READY`. -/
theorem C8_init_cleanup_state_machine (s : ManagerState) (env : BackendEnv)
    (h : s.initialized = false) :
    (flash_manager_init s env).2 = EfiStatus.Success
    ∧ (flash_manager_init s env).1.initialized = true
    ∧ (flash_manager_init (flash_manager_init s env).1 env).2 = EfiStatus.AlreadyStarted
    ∧ (flash_manager_init (flash_manager_init s env).1 env).1 = (flash_manager_init s env).1
    ∧ (flash_manager_cleanup (flash_manager_init s env).1).2 = EfiStatus.Success
    ∧ (flash_manager_cleanup (flash_manager_init s env).1).1.initialized = false
    ∧ (flash_manager_cleanup (flash_manager_cleanup (flash_manager_init s env).1).1).2
      = EfiStatus.NotReady := by
  simp [flash_manager_init, flash_manager_cleanup, h]

/-- C8 witness: the pristine module state against the default backend. -/
theorem C8_init_cleanup_state_machine_witness :
    (flash_manager_init initialManagerState defaultEnv).2 = EfiStatus.Success
    ∧ (flash_manager_init initialManagerState defaultEnv).1.initialized = true
    ∧ (flash_manager_init (flash_manager_init initialManagerState defaultEnv).1 defaultEnv).2
      = EfiStatus.AlreadyStarted
    ∧ (flash_manager_init (flash_manager_init initialManagerState defaultEnv).1 defaultEnv).1
      = (flash_manager_init initialManagerState defaultEnv).1
    ∧ (flash_manager_cleanup (flash_manager_init initialManagerState defaultEnv).1).2
      = EfiStatus.Success
    ∧ (flash_manager_cleanup (flash_manager_init initialManagerState defaultEnv).1).1.initialized
      = false
    ∧ (flash_manager_cleanup
        (flash_manager_cleanup (flash_manager_init initialManagerState defaultEnv).1).1).2
      = EfiStatus.NotReady :=
  C8_init_cleanup_state_machine initialManagerState defaultEnv (by decide)

/-- C9: reads bypass region policy.  Every non-empty in-bounds read on
an initialized manager with a non-null buffer succeeds when the backend
succeeds, and the result of `flash_read` is identical under any
replacement of the region table: no region attribute is ever
consulted. -/
theorem C9_reads_bypass_region_policy (s : ManagerState) (Address Size : Nat)
    (regions2 : List FLASH_REGION)
    (hinit : s.initialized = true) (hs : 1 ≤ Size)
    (hb : Address + Size ≤ s.flashInfo.TotalSize) :
    (flash_read s Address false Size EfiStatus.Success).status = EfiStatus.Success
    ∧ flash_read { s with regions := regions2 } Address false Size EfiStatus.Success
      = flash_read s Address false Size EfiStatus.Success := by
  constructor
  · have hmod : (Address + Size) % UINT64_MOD ≤ s.flashInfo.TotalSize :=
      le_trans (Nat.mod_le _ _) hb
    have hnb : ¬ (Address + Size) % UINT64_MOD > s.flashInfo.TotalSize := by omega
    have hsz : ¬ Size = 0 := by omega
    simp [flash_read, hinit, hsz, hnb, EFI_ERROR]
    split <;> rfl
  · rfl

/-- C9 witness: a 4 KiB read at 64 KiB on the default device succeeds,
and replacing the region table by an empty one changes nothing. -/
theorem C9_reads_bypass_region_policy_witness :
    (flash_read state16MB 65536 false 4096 EfiStatus.Success).status = EfiStatus.Success
    ∧ flash_read { state16MB with regions := [] } 65536 false 4096 EfiStatus.Success
      = flash_read state16MB 65536 false 4096 EfiStatus.Success :=
  C9_reads_bypass_region_policy state16MB 65536 4096 [] (by decide) (by decide) (by decide)

/-- C10: the default layout tiles the device exactly.  For every
descriptor with `total_size ≥ 320 KiB` (within the 32-bit address
space) and every 32-bit address: an in-bounds address is contained in
exactly one of the four constructed regions and the erase check never
reaches its `NotFound` branch, while an out-of-bounds address is
contained in none — so the regions are pairwise disjoint and their
union is exactly `[0, total_size)`. -/
theorem C10_default_layout_tiles_device (info : FLASH_DEVICE_INFO) (Address : Nat)
    (h1 : 320 * 1024 ≤ info.TotalSize) (h2 : info.TotalSize ≤ UINT32_MOD)
    (ha : Address < UINT32_MOD) :
    (Address < info.TotalSize →
      (InitializeFlashRegions info).countP (fun r => containsB r Address) = 1
      ∧ CheckRegionEraseSupport (InitializeFlashRegions info) Address
        ≠ EraseCheckResult.NotFound)
    ∧ (info.TotalSize ≤ Address →
      (InitializeFlashRegions info).countP (fun r => containsB r Address) = 0) := by
  simp only [UINT32_MOD] at h2 ha
  have eMF : (info.TotalSize + (UINT64_MOD - 256 * 1024)) % UINT64_MOD % UINT32_MOD
      = info.TotalSize - 262144 := by
    simp only [UINT64_MOD, UINT32_MOD]; omega
  have eNV : (info.TotalSize + (UINT64_MOD - 192 * 1024)) % UINT64_MOD % UINT32_MOD
      = info.TotalSize - 196608 := by
    simp only [UINT64_MOD, UINT32_MOD]; omega
  have eDE : (info.TotalSize + (UINT64_MOD - 64 * 1024)) % UINT64_MOD % UINT32_MOD
      = info.TotalSize - 65536 := by
    simp only [UINT64_MOD, UINT32_MOD]; omega
  have hcount : ∀ hx : Address < info.TotalSize ∨ info.TotalSize ≤ Address,
      (InitializeFlashRegions info).countP (fun r => containsB r Address)
        = if Address < info.TotalSize then 1 else 0 := by
    intro hx
    simp only [InitializeFlashRegions, eMF, eNV, eDE, List.countP_cons, List.countP_nil,
      containsB]
    simp [regionEnd, UINT32_MOD]
    split_ifs <;> omega
  have hchk := defaultRegions_eraseCheck info Address h1 (by simp only [UINT32_MOD]; omega)
  refine ⟨fun hin => ⟨?_, ?_⟩, fun hout => ?_⟩
  · rw [hcount (Or.inl hin), if_pos hin]
  · rw [hchk]
    split_ifs <;> simp
  · rw [hcount (Or.inr hout), if_neg (by omega)]

/-- C10 witness: on the 16 MiB default descriptor, address 0 lies in
exactly one region and the erase check finds it, while the first
address past the end lies in none. -/
theorem C10_default_layout_tiles_device_witness :
    ((InitializeFlashRegions state16MB.flashInfo).countP
        (fun r => containsB r 0) = 1
      ∧ CheckRegionEraseSupport (InitializeFlashRegions state16MB.flashInfo) 0
        ≠ EraseCheckResult.NotFound)
    ∧ (InitializeFlashRegions state16MB.flashInfo).countP
        (fun r => containsB r 16777216) = 0 :=
  ⟨(C10_default_layout_tiles_device state16MB.flashInfo 0 (by decide) (by decide)
      (by decide)).1 (by decide),
   (C10_default_layout_tiles_device state16MB.flashInfo 16777216 (by decide) (by decide)
      (by decide)).2 (by decide)⟩

end FlashMgr
